import Mathlib

/-!
# Verification of the react-tip-magic tooltip core

Shallow embedding of the tooltip library's core: the attribute parser
(`src/utils/parseDataAttributes.ts`), the visibility state machine
(`tipMagicReducer` in `src/context/TipMagicContext.tsx`), the rendering-side
transition policy (`Tooltip.tsx`), the event delegation engine
(`TipMagicEventHandler` in `src/components/TipMagicProvider.tsx`) and the
programmatic API (`useTipMagic.ts`).

JavaScript numbers that only ever hold integer delay values are modelled as
`Int`; DOM elements are modelled as a reference identity (`Nat`) together with
their `data-*` attribute bag; `setTimeout`/`clearTimeout` are modelled by an
explicit list of pending timers with fresh ids from a counter, so that a timer
whose handle is overwritten without `clearTimeout` remains pending (exactly as
in the JavaScript runtime).
-/

namespace TipMagic

/-- The 12 placement values (`src/types/index.ts`). -/
inductive Placement where
  | top | topStart | topEnd
  | bottom | bottomStart | bottomEnd
  | left | leftStart | leftEnd
  | right | rightStart | rightEnd
deriving DecidableEq, Repr

/-- `TooltipTransitionBehavior = 'move' | 'jump'` (`src/types/index.ts`). -/
inductive TooltipTransitionBehavior where
  | move | jump
deriving DecidableEq, Repr

/-- `TextBreak = 'normal' | 'break-all' | 'keep-all'` (`src/types/index.ts`). -/
inductive TextBreak where
  | normal | breakAll | keepAll
deriving DecidableEq, Repr

/-- `HelperState` (`src/types/index.ts`). -/
inductive HelperState where
  | idle | thinking | working | informative | cta | success | error | warning
deriving DecidableEq, Repr

/-- `HelperPosition` (`src/types/index.ts`). -/
inductive HelperPosition where
  | auto | nearTarget | bottomRight | bottomLeft | topRight | topLeft | center
deriving DecidableEq, Repr

/-- The `data-*` attribute bag of a candidate element, as exposed through
`element.dataset` (camel-cased keys).  Each recognized key is either absent
(`none`) or present with a string value (`some v`; the empty string is a
present value).  `tipGroup` models the `data-tip-group` marker that the demo
stories and README attach to elements; note that `parseDataAttributes` below
(faithful to `src/utils/parseDataAttributes.ts`) never reads it. -/
structure Dataset where
  tip : Option String := none
  tipId : Option String := none
  tipPlacement : Option String := none
  tipDelay : Option String := none
  tipHideDelay : Option String := none
  tipDisabled : Option String := none
  tipEllipsis : Option String := none
  tipMaxLines : Option String := none
  tipWordWrap : Option String := none
  tipTextBreak : Option String := none
  tipMaxWidth : Option String := none
  tipHtml : Option String := none
  tipInteractive : Option String := none
  tipMove : Option String := none
  tipJump : Option String := none
  tipMoveDuration : Option String := none
  tipNoArrow : Option String := none
  tipGroup : Option String := none
deriving DecidableEq, Repr

/-- A DOM element: a reference identity (JavaScript `===` compares references)
together with its attribute bag. -/
structure Elem where
  ref : Nat
  dataset : Dataset
deriving DecidableEq, Repr

/-- The provider configuration after merging user options over
`DEFAULT_OPTIONS` (`Required<TipMagicOptions>`); only the fields consumed by
the embedded core are carried. -/
structure Config where
  showDelay : Int
  hideDelay : Int
  placement : Placement
  disabled : Bool
  transitionBehavior : TooltipTransitionBehavior
  moveTransitionDuration : Int
deriving DecidableEq, Repr

/-- `DEFAULT_OPTIONS` (`src/constants/index.ts` lines 11-28), restricted to the
fields carried by `Config`. -/
def DEFAULT_OPTIONS : Config :=
  { showDelay := 200
    hideDelay := 700
    placement := .top
    disabled := false
    transitionBehavior := .move
    moveTransitionDuration := 200 }

/-- Fold a list of decimal digit characters into a natural number. -/
def digitsToNat (cs : List Char) : Nat :=
  cs.foldl (fun a c => a * 10 + (c.toNat - 48)) 0

/-- JavaScript `parseInt(value, 10)`: skip leading whitespace, optional sign,
then the longest prefix of decimal digits; `NaN` (here `none`) when no digit
follows. -/
def jsParseInt (s : String) : Option Int :=
  let stripped := (s.toList).dropWhile (fun c => c.isWhitespace)
  let signAndRest : Int × List Char :=
    match stripped with
    | '-' :: cs => (-1, cs)
    | '+' :: cs => (1, cs)
    | cs => (1, cs)
  let ds := signAndRest.2.takeWhile (fun c => c.isDigit)
  if ds.isEmpty then none
  else some (signAndRest.1 * (digitsToNat ds : Int))

/-- `parseIntWithDefault` (`parseDataAttributes.ts` lines 36-40): absent or
unparsable text yields the supplied default. -/
def parseIntWithDefault (value : Option String) (defaultValue : Int) : Int :=
  match value with
  | none => defaultValue
  | some s =>
    match jsParseInt s with
    | none => defaultValue
    | some n => n

/-- `parseOptionalInt` (`parseDataAttributes.ts` lines 67-71): absent or
unparsable text yields `none`, distinguishable from any default. -/
def parseOptionalInt (value : Option String) : Option Int :=
  match value with
  | none => none
  | some s => jsParseInt s

/-- `parseBooleanAttribute` (`parseDataAttributes.ts` lines 46-48): a boolean
data attribute is true exactly when the key is present, regardless of its
value (including the empty string). -/
def parseBooleanAttribute (value : Option String) : Bool :=
  value.isSome

/-- The string spelling of each placement, for `VALID_PLACEMENTS` membership. -/
def placementOfString (s : String) : Option Placement :=
  if s = "top" then some .top
  else if s = "top-start" then some .topStart
  else if s = "top-end" then some .topEnd
  else if s = "bottom" then some .bottom
  else if s = "bottom-start" then some .bottomStart
  else if s = "bottom-end" then some .bottomEnd
  else if s = "left" then some .left
  else if s = "left-start" then some .leftStart
  else if s = "left-end" then some .leftEnd
  else if s = "right" then some .right
  else if s = "right-start" then some .rightStart
  else if s = "right-end" then some .rightEnd
  else none

/-- `parsePlacement` (`parseDataAttributes.ts` lines 26-31): a value outside
`VALID_PLACEMENTS` (or absent, or the falsy empty string) silently resolves to
`DEFAULT_OPTIONS.placement`. -/
def parsePlacement (value : Option String) : Placement :=
  match value with
  | none => DEFAULT_OPTIONS.placement
  | some s =>
    match placementOfString s with
    | some p => p
    | none => DEFAULT_OPTIONS.placement

/-- The string spelling of each text-break mode, for `VALID_TEXT_BREAKS`. -/
def textBreakOfString (s : String) : Option TextBreak :=
  if s = "normal" then some .normal
  else if s = "break-all" then some .breakAll
  else if s = "keep-all" then some .keepAll
  else none

/-- `parseTextBreak` (`parseDataAttributes.ts` lines 81-86). -/
def parseTextBreak (value : Option String) : TextBreak :=
  match value with
  | none => .normal
  | some s =>
    match textBreakOfString s with
    | some t => t
    | none => .normal

/-- `parseTransitionBehavior` (`parseDataAttributes.ts` lines 54-62):
`data-tip-move` takes precedence over `data-tip-jump`; neither present means
`undefined` (defer to the provider default). -/
def parseTransitionBehavior (dataset : Dataset) : Option TooltipTransitionBehavior :=
  if dataset.tipMove.isSome then some .move
  else if dataset.tipJump.isSome then some .jump
  else none

/-- `ParsedTooltipData` (`src/context/TipMagicContext.tsx` lines 229-251).
The interface declares no `group` field and `parseDataAttributes` writes none;
the rendering component nevertheless reads `tooltip.parsedData?.group`, an
access modelled by `jsGroupField` below.  `contentSeparator` is likewise not
declared on the interface, but the programmatic API (`useTipMagic.ts` lines
104-106) spreads it into the merged record at runtime, so it is carried here
as an `Option` that `parseDataAttributes` always leaves `none`. -/
structure ParsedTooltipData where
  content : String
  id : Option String
  placement : Placement
  delay : Int
  hideDelay : Option Int
  disabled : Bool
  ellipsis : Bool
  maxLines : Int
  wordWrap : Bool
  textBreak : TextBreak
  maxWidth : Int
  html : Bool
  interactive : Bool
  transitionBehavior : Option TooltipTransitionBehavior
  moveTransitionDuration : Option Int
  showArrow : Bool
  contentSeparator : Option String := none
deriving DecidableEq, Repr

/-- `parseDataAttributes` (`parseDataAttributes.ts` lines 91-112).  Note the
`delay` field: when `data-tip-delay` is absent the parser substitutes the
library constant `DEFAULT_OPTIONS.showDelay`, not the provider-configured
default. -/
def parseDataAttributes (element : Elem) : ParsedTooltipData :=
  let dataset := element.dataset
  { content := dataset.tip.getD ""
    id := dataset.tipId
    placement := parsePlacement dataset.tipPlacement
    delay := parseIntWithDefault dataset.tipDelay DEFAULT_OPTIONS.showDelay
    hideDelay := parseOptionalInt dataset.tipHideDelay
    disabled := parseBooleanAttribute dataset.tipDisabled
    ellipsis := parseBooleanAttribute dataset.tipEllipsis
    maxLines := parseIntWithDefault dataset.tipMaxLines 1
    wordWrap := parseBooleanAttribute dataset.tipWordWrap
    textBreak := parseTextBreak dataset.tipTextBreak
    maxWidth := parseIntWithDefault dataset.tipMaxWidth 300
    html := parseBooleanAttribute dataset.tipHtml
    interactive := parseBooleanAttribute dataset.tipInteractive
    transitionBehavior := parseTransitionBehavior dataset
    moveTransitionDuration := parseOptionalInt dataset.tipMoveDuration
    showArrow := !parseBooleanAttribute dataset.tipNoArrow }

/-- The rendering component (`Tooltip.tsx` line 71) reads
`tooltip.parsedData?.group`.  `ParsedTooltipData` declares no `group` field
and no code path ever writes one, so in JavaScript this property access always
evaluates to `undefined`. -/
def jsGroupField (_ : ParsedTooltipData) : Option String := none

/-- A screen position, for `TooltipState.position`. -/
structure Position where
  x : Int
  y : Int
deriving DecidableEq, Repr

/-- `TooltipState` (`src/context/TipMagicContext.tsx` lines 256-264).  The
interface has exactly these fields; in particular it declares no
`previousGroup` field, an absent property modelled by `jsPreviousGroupField`
below. -/
structure TooltipState where
  visible : Bool
  content : String
  target : Option Elem
  position : Position
  placement : Placement
  isTransitioning : Bool
  parsedData : Option ParsedTooltipData
deriving DecidableEq, Repr

/-- The rendering component (`Tooltip.tsx` line 72) reads
`tooltip.previousGroup`.  `TooltipState` declares no `previousGroup` field and
no reducer case ever writes one, so in JavaScript this property access always
evaluates to `undefined`. -/
def jsPreviousGroupField (_ : TooltipState) : Option String := none

/-- A helper action button; the `onClick` callback and icon node are opaque to
the state machine and are represented by the button label alone. -/
abbrev HelperAction := String

/-- `HelperInternalState` (`TipMagicContext.tsx` lines 269-277). -/
structure HelperInternalState where
  visible : Bool
  state : HelperState
  message : Option String
  actions : Option (List HelperAction)
  targetId : Option String
  position : HelperPosition
  autoHide : Option Int
deriving DecidableEq, Repr

/-- A guided-flow step (`src/types/index.ts`); the presentation-only fields
and callbacks are opaque to the reducer, which stores steps verbatim, so only
the identifying fields are carried. -/
structure FlowStep where
  id : String
  targetId : String
  message : String
deriving DecidableEq, Repr

/-- `FlowState` (`TipMagicContext.tsx` lines 282-286). -/
structure FlowState where
  active : Bool
  steps : List FlowStep
  currentIndex : Int
deriving DecidableEq, Repr

/-- `TipMagicState` (`TipMagicContext.tsx` lines 291-296). -/
structure TipMagicState where
  tooltip : TooltipState
  helper : HelperInternalState
  flow : FlowState
  config : Config
deriving DecidableEq, Repr

/-- `initialTooltipState` (`TipMagicContext.tsx` lines 301-309). -/
def initialTooltipState : TooltipState :=
  { visible := false
    content := ""
    target := none
    position := { x := 0, y := 0 }
    placement := .top
    isTransitioning := false
    parsedData := none }

/-- `initialHelperState` (`TipMagicContext.tsx` lines 314-322). -/
def initialHelperState : HelperInternalState :=
  { visible := false
    state := .idle
    message := none
    actions := none
    targetId := none
    position := .bottomRight
    autoHide := none }

/-- `initialFlowState` (`TipMagicContext.tsx` lines 327-331). -/
def initialFlowState : FlowState :=
  { active := false
    steps := []
    currentIndex := -1 }

/-- `createInitialState` (`TipMagicContext.tsx` lines 336-350), taking the
already-merged configuration (the source spreads the user options over
`DEFAULT_OPTIONS`). -/
def createInitialState (config : Config) : TipMagicState :=
  { tooltip := initialTooltipState
    helper := initialHelperState
    flow := initialFlowState
    config := config }

/-- The `SHOW_HELPER` payload, `Partial<HelperInternalState>`: each field is
either supplied (overriding the current value) or absent. -/
structure HelperShowPayload where
  state : Option HelperState := none
  message : Option (Option String) := none
  actions : Option (Option (List HelperAction)) := none
  targetId : Option (Option String) := none
  position : Option HelperPosition := none
  autoHide : Option (Option Int) := none
deriving DecidableEq, Repr

/-- `TipMagicAction` (`TipMagicContext.tsx` lines 355-386). -/
inductive TipMagicAction where
  | SHOW_TOOLTIP (target : Elem) (content : String) (parsedData : ParsedTooltipData)
  | HIDE_TOOLTIP
  | MOVE_TOOLTIP (target : Elem) (content : String) (parsedData : ParsedTooltipData)
  | UPDATE_TOOLTIP_POSITION (x y : Int) (placement : Placement)
  | UPDATE_TOOLTIP_CONTENT (content : String)
  | SET_TOOLTIP_TRANSITIONING (payload : Bool)
  | SHOW_HELPER (payload : HelperShowPayload)
  | HIDE_HELPER
  | SET_HELPER_STATE (payload : HelperState)
  | MOVE_HELPER (targetId : String)
  | START_FLOW (steps : List FlowStep)
  | NEXT_FLOW_STEP
  | PREV_FLOW_STEP
  | END_FLOW
deriving DecidableEq, Repr

/-- `tipMagicReducer` (`TipMagicContext.tsx` lines 391-528).  Each case is the
source's object-spread transcribed field by field; note that `MOVE_TOOLTIP`
spreads over the current tooltip state and therefore does not touch
`visible`. -/
def tipMagicReducer (state : TipMagicState) (action : TipMagicAction) : TipMagicState :=
  match action with
  | .SHOW_TOOLTIP target content parsedData =>
    { state with tooltip :=
      { state.tooltip with
        visible := true
        target := some target
        content := content
        parsedData := some parsedData
        isTransitioning := false } }
  | .HIDE_TOOLTIP =>
    { state with tooltip := initialTooltipState }
  | .MOVE_TOOLTIP target content parsedData =>
    { state with tooltip :=
      { state.tooltip with
        target := some target
        content := content
        parsedData := some parsedData
        isTransitioning := true } }
  | .UPDATE_TOOLTIP_POSITION x y placement =>
    { state with tooltip :=
      { state.tooltip with
        position := { x := x, y := y }
        placement := placement } }
  | .UPDATE_TOOLTIP_CONTENT content =>
    { state with tooltip := { state.tooltip with content := content } }
  | .SET_TOOLTIP_TRANSITIONING payload =>
    { state with tooltip := { state.tooltip with isTransitioning := payload } }
  | .SHOW_HELPER payload =>
    { state with helper :=
      { visible := true
        state := payload.state.getD state.helper.state
        message := payload.message.getD state.helper.message
        actions := payload.actions.getD state.helper.actions
        targetId := payload.targetId.getD state.helper.targetId
        position := payload.position.getD state.helper.position
        autoHide := payload.autoHide.getD state.helper.autoHide } }
  | .HIDE_HELPER =>
    { state with helper :=
      { initialHelperState with position := state.helper.position } }
  | .SET_HELPER_STATE payload =>
    { state with helper := { state.helper with state := payload } }
  | .MOVE_HELPER targetId =>
    { state with helper := { state.helper with targetId := some targetId } }
  | .START_FLOW steps =>
    { state with flow := { active := true, steps := steps, currentIndex := 0 } }
  | .NEXT_FLOW_STEP =>
    { state with flow :=
      { state.flow with
        currentIndex := min (state.flow.currentIndex + 1) ((state.flow.steps.length : Int) - 1) } }
  | .PREV_FLOW_STEP =>
    { state with flow :=
      { state.flow with currentIndex := max (state.flow.currentIndex - 1) 0 } }
  | .END_FLOW =>
    { state with flow := initialFlowState }

/-- The per-tooltip transition behavior resolution (`Tooltip.tsx` lines
31-32): `tooltip.parsedData?.transitionBehavior ?? config.transitionBehavior`. -/
def transitionBehaviorOf (tooltip : TooltipState) (config : Config) : TooltipTransitionBehavior :=
  match tooltip.parsedData with
  | some d =>
    match d.transitionBehavior with
    | some b => b
    | none => config.transitionBehavior
  | none => config.transitionBehavior

/-- `currentGroup` (`Tooltip.tsx` line 71): `tooltip.parsedData?.group`. -/
def currentGroupOf (tooltip : TooltipState) : Option String :=
  match tooltip.parsedData with
  | some d => jsGroupField d
  | none => none

/-- `areGroupsCompatible` (`Tooltip.tsx` lines 73-80), the four disjuncts of
the source expression. -/
def areGroupsCompatible (currentGroup previousGroup : Option String) : Bool :=
  decide ((currentGroup = none ∧ previousGroup = none) ∨
    currentGroup = previousGroup ∨
    (currentGroup = none ∧ previousGroup ≠ none) ∨
    (currentGroup ≠ none ∧ previousGroup = none))

/-- `shouldAnimatePosition` (`Tooltip.tsx` lines 85-89): animate only if
already positioned, transitioning, behavior `move`, and groups compatible. -/
def shouldAnimatePosition (hasBeenPositioned : Bool) (tooltip : TooltipState)
    (config : Config) : Bool :=
  hasBeenPositioned && tooltip.isTransitioning &&
    decide (transitionBehaviorOf tooltip config = .move) &&
    areGroupsCompatible (currentGroupOf tooltip) (jsPreviousGroupField tooltip)

/-- How the presentation layer renders a move-class transition: a position
animation (`move`) exactly when `shouldAnimatePosition` holds, otherwise a cut
to the new position (`jump`). -/
def renderedBehavior (hasBeenPositioned : Bool) (tooltip : TooltipState)
    (config : Config) : TooltipTransitionBehavior :=
  if shouldAnimatePosition hasBeenPositioned tooltip config then .move else .jump

/-! ## Event delegation engine (`TipMagicEventHandler`, `TipMagicProvider.tsx`)

Timers are modelled explicitly: `setTimeout` appends a pending timer with a
fresh positive id (browser timeout handles are positive integers, so a stored
handle is always truthy) and `clearTimeout` removes a pending timer by id.
The two refs hold the last handle of their kind; overwriting a ref without
`clearTimeout` leaves the old timer pending, exactly as in the browser.  Each
timer carries the callback the source closes over: the hide callback is
`hideTooltip`, the show callback armed while a tooltip is visible first clears
any pending hide then calls `showTooltip` (lines 118-125), and the show
callback armed while hidden calls `showTooltip` directly (lines 132-134).

All mutations within one event handler or timer callback are synchronous
(single-threaded); `isVisibleRef`/`parsedDataRef` are re-synced by a render
between steps, so within a step they read the store as of the step's start —
which is how the source uses them (each handler reads them before its first
dispatch). -/

/-- The callback a pending timer will run when it fires. -/
inductive TimerKind where
  | showVisible (target : Elem)
  | showHidden (target : Elem)
  | hideTip
deriving DecidableEq, Repr

/-- A pending `setTimeout`: its handle, callback and delay in ms. -/
structure PendingTimer where
  id : Nat
  kind : TimerKind
  delay : Int
deriving DecidableEq, Repr

/-- The event handler's instance state: the React store plus the refs
(`showTimeoutRef`, `hideTimeoutRef`, `currentTargetRef`) and the runtime's
pending-timer list with its handle counter. -/
structure EngineState where
  store : TipMagicState
  showTimeoutRef : Option Nat
  hideTimeoutRef : Option Nat
  currentTargetRef : Option Elem
  pending : List PendingTimer
  nextTimerId : Nat
deriving DecidableEq, Repr

/-- The engine state at provider mount: empty store, no refs, no timers;
handles start at 1 (browser handles are positive). -/
def initialEngineState (config : Config) : EngineState :=
  { store := createInitialState config
    showTimeoutRef := none
    hideTimeoutRef := none
    currentTargetRef := none
    pending := []
    nextTimerId := 1 }

/-- `window.setTimeout`: arm a timer, returning the new state and handle. -/
def engineSetTimeout (s : EngineState) (kind : TimerKind) (delay : Int) :
    EngineState × Nat :=
  ({ s with
      pending := s.pending ++ [{ id := s.nextTimerId, kind := kind, delay := delay }]
      nextTimerId := s.nextTimerId + 1 },
   s.nextTimerId)

/-- `window.clearTimeout`: cancel the pending timer with this handle (a no-op
on a stale handle). -/
def engineClearTimeout (s : EngineState) (id : Nat) : EngineState :=
  { s with pending := s.pending.filter (fun t => t.id ≠ id) }

/-- `dispatch`: run the reducer on the store. -/
def engineDispatch (s : EngineState) (action : TipMagicAction) : EngineState :=
  { s with store := tipMagicReducer s.store action }

/-- The source's recurring block `if (showTimeoutRef.current)
{ clearTimeout(showTimeoutRef.current); }` without nulling the ref
(`TipMagicProvider.tsx` lines 97-99). -/
def clearShowKeepRef (s : EngineState) : EngineState :=
  match s.showTimeoutRef with
  | some id => engineClearTimeout s id
  | none => s

/-- The source's recurring block `if (showTimeoutRef.current)
{ clearTimeout(showTimeoutRef.current); showTimeoutRef.current = null; }`
(`TipMagicProvider.tsx` lines 37-40, 177-180). -/
def clearShowNullRef (s : EngineState) : EngineState :=
  match s.showTimeoutRef with
  | some id => { engineClearTimeout s id with showTimeoutRef := none }
  | none => s

/-- The source's recurring block `if (hideTimeoutRef.current)
{ clearTimeout(hideTimeoutRef.current); hideTimeoutRef.current = null; }`
(`TipMagicProvider.tsx` lines 41-44, 110-113, 120-123, 139-142). -/
def clearHideNullRef (s : EngineState) : EngineState :=
  match s.hideTimeoutRef with
  | some id => { engineClearTimeout s id with hideTimeoutRef := none }
  | none => s

/-- The source's block `if (hideTimeoutRef.current)
{ clearTimeout(hideTimeoutRef.current); }` without nulling the ref
(`TipMagicProvider.tsx` lines 189-191). -/
def clearHideKeepRef (s : EngineState) : EngineState :=
  match s.hideTimeoutRef with
  | some id => engineClearTimeout s id
  | none => s

/-- `clearTimeouts` (`TipMagicProvider.tsx` lines 36-45): cancel both tracked
timers and null both refs. -/
def clearTimeouts (s : EngineState) : EngineState :=
  clearHideNullRef (clearShowNullRef s)

/-- `showTooltip` (`TipMagicProvider.tsx` lines 48-81): parse the target,
silently bail out when the target or provider is disabled or the content is
empty, otherwise dispatch `MOVE_TOOLTIP` (visible, different target) or
`SHOW_TOOLTIP` (hidden), and record the current target. -/
def showTooltip (s : EngineState) (target : Elem) : EngineState :=
  let parsedData := parseDataAttributes target
  if parsedData.disabled || s.store.config.disabled then s
  else if parsedData.content = "" then s
  else
    let isCurrentlyVisible := s.store.tooltip.visible
    let s1 :=
      if isCurrentlyVisible && decide (s.currentTargetRef ≠ some target) then
        engineDispatch s (.MOVE_TOOLTIP target parsedData.content parsedData)
      else if !isCurrentlyVisible then
        engineDispatch s (.SHOW_TOOLTIP target parsedData.content parsedData)
      else s
    { s1 with currentTargetRef := some target }

/-- `hideTooltip` (`TipMagicProvider.tsx` lines 84-87). -/
def hideTooltip (s : EngineState) : EngineState :=
  let s1 := engineDispatch s .HIDE_TOOLTIP
  { s1 with currentTargetRef := none }

/-- `handleMouseOver` (`TipMagicProvider.tsx` lines 90-146).  `target` is the
result of `closest('[data-tip]')` on the event target; `isOverTooltip` is
whether the event target lies inside the tooltip surface. -/
def handleMouseOver (s : EngineState) (target : Option Elem)
    (isOverTooltip : Bool) : EngineState :=
  match target with
  | some t =>
    if decide (s.currentTargetRef ≠ some t) then
      -- Clear existing show timeout (the ref itself is not nulled here)
      let s := clearShowKeepRef s
      let parsedData := parseDataAttributes t
      -- `parsedData.delay ?? config.showDelay`: `delay` is a non-optional
      -- number, so the `?? config.showDelay` fallback can never apply
      let delay := parsedData.delay
      if s.store.tooltip.visible then
        if delay = 0 then
          showTooltip (clearHideNullRef s) t
        else
          let (s, id) := engineSetTimeout s (.showVisible t) delay
          { s with showTimeoutRef := some id }
      else
        if delay = 0 then
          showTooltip s t
        else
          let (s, id) := engineSetTimeout s (.showHidden t) delay
          { s with showTimeoutRef := some id }
    else if isOverTooltip then
      clearHideNullRef s
    else s
  | none =>
    if isOverTooltip then
      clearHideNullRef s
    else s

/-- `handleMouseOut` (`TipMagicProvider.tsx` lines 149-198).  The booleans are
the results of the source's `closest` calls: `isLeavingTooltip` and
`isLeavingTarget` on the event target, and the containment of the (optional)
`relatedTarget` in the tooltip surface, the helper surface, and any
`[data-tip]` ancestor (optional chaining makes these falsy when
`relatedTarget` is null). -/
def handleMouseOut (s : EngineState) (isLeavingTooltip isLeavingTarget : Bool)
    (relatedTarget : Option Elem)
    (relatedInTooltip relatedInHelper relatedInTip : Bool) : EngineState :=
  if relatedTarget.isSome && relatedInTooltip then s
  else if relatedTarget.isSome && relatedInHelper then s
  else if relatedTarget.isSome && relatedInTip then s
  else if isLeavingTooltip && decide (relatedTarget = s.currentTargetRef) then s
  else
    -- Clear show timeout if leaving before it triggers
    let s := clearShowNullRef s
    if s.store.tooltip.visible && (isLeavingTarget || isLeavingTooltip) then
      -- Per-element hide delay if set, otherwise the provider config
      let hideDelay :=
        match s.store.tooltip.parsedData with
        | some d => d.hideDelay.getD s.store.config.hideDelay
        | none => s.store.config.hideDelay
      -- Clear any existing hide timeout first
      let s := clearHideKeepRef s
      let (s, id) := engineSetTimeout s .hideTip hideDelay
      { s with hideTimeoutRef := some id }
    else s

/-- `handleFocusIn` (`TipMagicProvider.tsx` lines 201-209): a focused target
is shown immediately via `showTooltip`, with no timer. -/
def handleFocusIn (s : EngineState) (target : Option Elem) : EngineState :=
  match target with
  | some t => showTooltip s t
  | none => s

/-- `handleFocusOut` (`TipMagicProvider.tsx` lines 212-231): arm a hide timer
with the resolved hide delay.  Note the source neither cancels a pending hide
timer nor checks visibility before arming. -/
def handleFocusOut (s : EngineState) (target : Option Elem)
    (relatedTarget : Option Elem) (relatedInTip : Bool) : EngineState :=
  if relatedTarget.isSome && relatedInTip then s
  else
    match target with
    | some _ =>
      let hideDelay :=
        match s.store.tooltip.parsedData with
        | some d => d.hideDelay.getD s.store.config.hideDelay
        | none => s.store.config.hideDelay
      let (s, id) := engineSetTimeout s .hideTip hideDelay
      { s with hideTimeoutRef := some id }
    | none => s

/-- `handleKeyDown` (`TipMagicProvider.tsx` lines 234-242): Escape while a
tooltip is visible cancels all timers and hides; otherwise nothing. -/
def handleKeyDown (s : EngineState) (key : String) : EngineState :=
  if key = "Escape" && s.store.tooltip.visible then
    hideTooltip (clearTimeouts s)
  else s

/-- A timer firing: the runtime removes it from the pending list and runs its
callback (a stale handle never fires). -/
def fireTimer (s : EngineState) (id : Nat) : EngineState :=
  match s.pending.find? (fun t => t.id = id) with
  | none => s
  | some t =>
    let s := { s with pending := s.pending.filter (fun u => u.id ≠ id) }
    match t.kind with
    | .hideTip => hideTooltip s
    | .showHidden target => showTooltip s target
    | .showVisible target =>
      -- Clear any pending hide timeout when showing the new target
      showTooltip (clearHideNullRef s) target

/-- One stimulus processed by the engine: a delegated DOM event or a timer
firing. -/
inductive DomEvent where
  | mouseOver (target : Option Elem) (isOverTooltip : Bool)
  | mouseOut (isLeavingTooltip isLeavingTarget : Bool) (relatedTarget : Option Elem)
      (relatedInTooltip relatedInHelper relatedInTip : Bool)
  | focusIn (target : Option Elem)
  | focusOut (target : Option Elem) (relatedTarget : Option Elem) (relatedInTip : Bool)
  | keyDown (key : String)
  | timerFire (id : Nat)
deriving DecidableEq, Repr

/-- The engine's step function.  When `config.disabled` is set the provider's
`useEffect` (lines 245-263) attaches no DOM listeners, so DOM events are
ignored; timers already armed still fire. -/
def step (s : EngineState) : DomEvent → EngineState
  | .mouseOver target isOverTooltip =>
    if s.store.config.disabled then s else handleMouseOver s target isOverTooltip
  | .mouseOut lt ltg rel rit rih rip =>
    if s.store.config.disabled then s else handleMouseOut s lt ltg rel rit rih rip
  | .focusIn target =>
    if s.store.config.disabled then s else handleFocusIn s target
  | .focusOut target rel rip =>
    if s.store.config.disabled then s else handleFocusOut s target rel rip
  | .keyDown key =>
    if s.store.config.disabled then s else handleKeyDown s key
  | .timerFire id => fireTimer s id

/-- Process a sequence of stimuli from a starting state. -/
def run (s : EngineState) (events : List DomEvent) : EngineState :=
  events.foldl step s

/-! ## Programmatic API (`useTipMagic.ts`) -/

/-- `TooltipShowOptions` (`src/types/index.ts`): per-call overrides for the
programmatic `tooltip.show`. -/
structure TooltipShowOptions where
  content : Option String := none
  placement : Option Placement := none
  showDelay : Option Int := none
  hideDelay : Option Int := none
  ellipsis : Option Bool := none
  maxLines : Option Int := none
  wordWrap : Option Bool := none
  textBreak : Option TextBreak := none
  maxWidth : Option Int := none
  html : Option Bool := none
  interactive : Option Bool := none
  transitionBehavior : Option TooltipTransitionBehavior := none
  moveTransitionDuration : Option Int := none
  showArrow : Option Bool := none
  contentSeparator : Option String := none
deriving DecidableEq, Repr

/-- The second argument of `tooltip.show`: a content string, an options
object, or nothing. -/
inductive ShowArg where
  | contentStr (s : String)
  | options (o : TooltipShowOptions)
  | absent
deriving DecidableEq, Repr

/-- `tooltipShow` (`useTipMagic.ts` lines 47-146).  `element` is the already
resolved target (the source's `document.querySelector` resolution is
environment input); `none` models an unresolved target, which only warns.
Note that, unlike the event-driven `showTooltip`, this path checks neither
`parsedData.disabled` nor the global `config.disabled`. -/
def tooltipShow (state : TipMagicState) (element : Option Elem)
    (arg : ShowArg) : TipMagicState :=
  match element with
  | none => state -- console.warn: could not find target element
  | some el =>
    let parsedData := parseDataAttributes el
    let (tooltipContent, options) : String × TooltipShowOptions :=
      match arg with
      | .contentStr c => (c, {})
      | .options o => (o.content.getD parsedData.content, o)
      | .absent => (parsedData.content, {})
    if tooltipContent = "" then state -- console.warn: no content provided
    else
      let mergedData : ParsedTooltipData :=
        { parsedData with
          content := tooltipContent
          placement := options.placement.getD parsedData.placement
          delay := options.showDelay.getD parsedData.delay
          hideDelay :=
            match options.hideDelay with
            | some d => some d
            | none => parsedData.hideDelay
          ellipsis := options.ellipsis.getD parsedData.ellipsis
          maxLines := options.maxLines.getD parsedData.maxLines
          wordWrap := options.wordWrap.getD parsedData.wordWrap
          textBreak := options.textBreak.getD parsedData.textBreak
          maxWidth := options.maxWidth.getD parsedData.maxWidth
          html := options.html.getD parsedData.html
          interactive := options.interactive.getD parsedData.interactive
          transitionBehavior :=
            match options.transitionBehavior with
            | some b => some b
            | none => parsedData.transitionBehavior
          moveTransitionDuration :=
            match options.moveTransitionDuration with
            | some d => some d
            | none => parsedData.moveTransitionDuration
          showArrow := options.showArrow.getD parsedData.showArrow
          contentSeparator :=
            match options.contentSeparator with
            | some sep => some sep
            | none => parsedData.contentSeparator }
      if state.tooltip.visible then
        if state.tooltip.target = some el then
          tipMagicReducer state (.SHOW_TOOLTIP el tooltipContent mergedData)
        else
          tipMagicReducer state (.MOVE_TOOLTIP el tooltipContent mergedData)
      else
        tipMagicReducer state (.SHOW_TOOLTIP el tooltipContent mergedData)

/-! ## Stated properties and concrete fixtures -/

/-- The spec's state-machine invariant:
`visible == false ⇒ target == null ∧ descriptor == null ∧ isTransitioning == false`
(the descriptor is the stored `parsedData`). -/
def tooltipInvariant (t : TooltipState) : Prop :=
  t.visible = false → t.target = none ∧ t.parsedData = none ∧ t.isTransitioning = false

/-- The dispatch discipline actually observed by the reducer's callers:
`MOVE_TOOLTIP` (provider `showTooltip` line 66, `useTipMagic` line 109) and
`SET_TOOLTIP_TRANSITIONING` with payload `true` (`Tooltip.tsx` line 107, which
early-returns unless `tooltip.isTransitioning`) are only dispatched while the
tooltip is visible. -/
def dispatchGuard (state : TipMagicState) (action : TipMagicAction) : Bool :=
  match action with
  | .MOVE_TOOLTIP _ _ _ => state.tooltip.visible
  | .SET_TOOLTIP_TRANSITIONING true => state.tooltip.visible
  | _ => true

/-- The spec's hide-delay resolution rule, stated in the spec's words for
comparison with the two handlers: "the per-target hide-delay override if the
currently-shown descriptor specifies one, else the global default hide
delay". -/
def specHideDelayResolution (parsedData : Option ParsedTooltipData) (config : Config) : Int :=
  match parsedData with
  | some d =>
    match d.hideDelay with
    | some v => v
    | none => config.hideDelay
  | none => config.hideDelay

/-- Element with group marker `"a"`, move override, zero show delay. -/
def elemA : Elem :=
  { ref := 0
    dataset := { tip := some "A", tipDelay := some "0", tipMove := some "", tipGroup := some "a" } }

/-- Element with group marker `"b"`, move override, zero show delay. -/
def elemB : Elem :=
  { ref := 1
    dataset := { tip := some "B", tipDelay := some "0", tipMove := some "", tipGroup := some "b" } }

/-- Plain element with zero show delay. -/
def elemC : Elem :=
  { ref := 2, dataset := { tip := some "C", tipDelay := some "0" } }

/-- Element whose `data-tip-disabled` marker is present (with empty value). -/
def elemD : Elem :=
  { ref := 3, dataset := { tip := some "hello", tipDisabled := some "" } }

/-- Plain element with no per-element delay attribute. -/
def elemE : Elem :=
  { ref := 4, dataset := { tip := some "E" } }

/-- Element carrying no `data-tip` content at all. -/
def elemEmpty : Elem :=
  { ref := 5, dataset := {} }

/-- The engine at mount with the default configuration. -/
def s0 : EngineState := initialEngineState DEFAULT_OPTIONS

/-- A provider configuration that overrides the default show delay. -/
def cfg500 : Config := { DEFAULT_OPTIONS with showDelay := 500 }

/-- Engine state after hovering `elemE` from mount: hidden, one pending show
timer (handle 1, 200 ms). -/
def s10 : EngineState := step s0 (.mouseOver (some elemE) false)

/-- Engine state with the tooltip visible on `elemC` and one pending hide
timer armed by a pointer leave. -/
def visibleWithHidePending : EngineState :=
  run s0 [.mouseOver (some elemC) false, .mouseOut false true none false false false]

/-- The result of dispatching `MOVE_TOOLTIP` against the hidden initial
state. -/
def movedFromHidden : TipMagicState :=
  tipMagicReducer (createInitialState DEFAULT_OPTIONS)
    (.MOVE_TOOLTIP elemB "B" (parseDataAttributes elemB))

/-! ## Theorems -/

section HelperLemmas

/-- `clearShowKeepRef` only filters the pending list. -/
theorem clearShowKeepRef_fields (s : EngineState) :
    (clearShowKeepRef s).store = s.store ∧
    (clearShowKeepRef s).nextTimerId = s.nextTimerId ∧
    (clearShowKeepRef s).showTimeoutRef = s.showTimeoutRef ∧
    (clearShowKeepRef s).hideTimeoutRef = s.hideTimeoutRef ∧
    (clearShowKeepRef s).currentTargetRef = s.currentTargetRef := by
  cases h : s.showTimeoutRef <;>
    simp [clearShowKeepRef, engineClearTimeout, h]

/-- `clearShowNullRef` only filters the pending list and nulls the show ref. -/
theorem clearShowNullRef_fields (s : EngineState) :
    (clearShowNullRef s).store = s.store ∧
    (clearShowNullRef s).nextTimerId = s.nextTimerId ∧
    (clearShowNullRef s).hideTimeoutRef = s.hideTimeoutRef ∧
    (clearShowNullRef s).currentTargetRef = s.currentTargetRef := by
  cases h : s.showTimeoutRef <;>
    simp [clearShowNullRef, engineClearTimeout, h]

/-- `clearHideKeepRef` only filters the pending list. -/
theorem clearHideKeepRef_fields (s : EngineState) :
    (clearHideKeepRef s).store = s.store ∧
    (clearHideKeepRef s).nextTimerId = s.nextTimerId ∧
    (clearHideKeepRef s).showTimeoutRef = s.showTimeoutRef ∧
    (clearHideKeepRef s).hideTimeoutRef = s.hideTimeoutRef ∧
    (clearHideKeepRef s).currentTargetRef = s.currentTargetRef := by
  cases h : s.hideTimeoutRef <;>
    simp [clearHideKeepRef, engineClearTimeout, h]

/-- `clearHideNullRef` only filters the pending list and nulls the hide ref. -/
theorem clearHideNullRef_fields (s : EngineState) :
    (clearHideNullRef s).store = s.store ∧
    (clearHideNullRef s).nextTimerId = s.nextTimerId ∧
    (clearHideNullRef s).showTimeoutRef = s.showTimeoutRef ∧
    (clearHideNullRef s).currentTargetRef = s.currentTargetRef := by
  cases h : s.hideTimeoutRef <;>
    simp [clearHideNullRef, engineClearTimeout, h]

/-- A timer that survives a clear was pending before. -/
theorem mem_of_mem_clear_pending (s : EngineState) (id : Nat) (t : PendingTimer)
    (h : t ∈ (engineClearTimeout s id).pending) : t ∈ s.pending := by
  simp only [engineClearTimeout] at h
  exact (List.mem_filter.mp h).1

/-- A pending timer with a different id survives `engineClearTimeout`. -/
theorem mem_clear_pending_of_ne (s : EngineState) (id : Nat) (t : PendingTimer)
    (hmem : t ∈ s.pending) (hne : t.id ≠ id) :
    t ∈ (engineClearTimeout s id).pending := by
  simp [engineClearTimeout, List.mem_filter, hmem, hne]

/-- `find?` by id returns the member itself when ids are unique. -/
theorem find_id_of_nodup (l : List PendingTimer) (t : PendingTimer)
    (hnd : (l.map (fun u => u.id)).Nodup) (hmem : t ∈ l) :
    l.find? (fun u => u.id = t.id) = some t := by
  induction l with
  | nil => cases hmem
  | cons h tl ih =>
    rcases List.mem_cons.mp hmem with rfl | htl
    · simp [List.find?]
    · have hne : h.id ≠ t.id := by
        intro he
        have hmap : h.id ∈ tl.map (fun u => u.id) := he ▸ List.mem_map_of_mem _ htl
        exact (List.nodup_cons.mp hnd).1 hmap
      rw [List.find?_cons_of_neg _ (by simp [hne])]
      exact ih (List.nodup_cons.mp hnd).2 htl

/-- `find?` skips a prefix on which the predicate fails. -/
theorem find_append_of_forall_neg (l1 l2 : List PendingTimer)
    (p : PendingTimer → Bool) (h : ∀ x ∈ l1, p x = false) :
    (l1 ++ l2).find? p = l2.find? p := by
  induction l1 with
  | nil => rfl
  | cons a tl ih =>
    rw [List.cons_append, List.find?_cons_of_neg _ (by simp [h a (List.mem_cons_self a tl)])]
    exact ih (fun x hx => h x (List.mem_cons_of_mem a hx))

/-- Clearing the tracked show timer only removes pending entries. -/
theorem clearShowKeepRef_pending_sublist (s : EngineState) :
    (clearShowKeepRef s).pending.Sublist s.pending := by
  cases h : s.showTimeoutRef with
  | none => simp [clearShowKeepRef, h]
  | some id =>
    simp [clearShowKeepRef, engineClearTimeout, h, List.filter_sublist]

/-- `clearHideNullRef` always leaves the hide ref empty. -/
theorem clearHideNullRef_hideRef (s : EngineState) :
    (clearHideNullRef s).hideTimeoutRef = none := by
  cases h : s.hideTimeoutRef <;> simp [clearHideNullRef, engineClearTimeout, h]

/-- `handleMouseOver` on a new target while visible, nonzero delay: the show
timer is re-armed and nothing else happens. -/
theorem mouseOver_visible_nonzero (s : EngineState) (b : Elem) (ov : Bool)
    (hdis : s.store.config.disabled = false)
    (hvis : s.store.tooltip.visible = true)
    (hcur : s.currentTargetRef ≠ some b)
    (hdnz : (parseDataAttributes b).delay ≠ 0) :
    step s (.mouseOver (some b) ov) =
      { clearShowKeepRef s with
          pending := (clearShowKeepRef s).pending ++
            [{ id := s.nextTimerId, kind := .showVisible b,
               delay := (parseDataAttributes b).delay }]
          nextTimerId := s.nextTimerId + 1
          showTimeoutRef := some s.nextTimerId } := by
  obtain ⟨hc1, hc2, hc3, hc4, hc5⟩ := clearShowKeepRef_fields s
  simp [step, handleMouseOver, engineSetTimeout, hdis, hcur, hdnz, hc1, hc2, hvis]

/-- `handleMouseOver` on a new target while visible, zero delay: the fast
path clears the tracked hide timer and engages synchronously. -/
theorem mouseOver_visible_zero (s : EngineState) (b : Elem) (ov : Bool)
    (hdis : s.store.config.disabled = false)
    (hvis : s.store.tooltip.visible = true)
    (hcur : s.currentTargetRef ≠ some b)
    (hdz : (parseDataAttributes b).delay = 0) :
    step s (.mouseOver (some b) ov) =
      showTooltip (clearHideNullRef (clearShowKeepRef s)) b := by
  obtain ⟨hc1, hc2, hc3, hc4, hc5⟩ := clearShowKeepRef_fields s
  simp [step, handleMouseOver, hdis, hcur, hdz, hc1, hvis]


/-- `showTooltip` after a hide-clear, engaging a distinct valid target while
visible: a `MOVE_TOOLTIP` dispatch with no timer or ref changes. -/
theorem showTooltip_after_clearHide_move (s x : EngineState) (b : Elem)
    (hxs : x.store = s.store) (hxc : x.currentTargetRef = s.currentTargetRef)
    (hdis : s.store.config.disabled = false)
    (hvis : s.store.tooltip.visible = true)
    (hcur : s.currentTargetRef ≠ some b)
    (hbdis : (parseDataAttributes b).disabled = false)
    (hbcontent : (parseDataAttributes b).content ≠ "") :
    (showTooltip (clearHideNullRef x) b).store.tooltip.visible = true ∧
    (showTooltip (clearHideNullRef x) b).store.tooltip.target = some b ∧
    (showTooltip (clearHideNullRef x) b).hideTimeoutRef = none ∧
    (showTooltip (clearHideNullRef x) b).pending = (clearHideNullRef x).pending ∧
    (showTooltip (clearHideNullRef x) b).nextTimerId = x.nextTimerId := by
  obtain ⟨hn1, hn2, hn3, hn4⟩ := clearHideNullRef_fields x
  have hrefnone := clearHideNullRef_hideRef x
  unfold showTooltip
  simp [hbdis, hbcontent, hn1, hn2, hn3, hn4, hxs, hxc, hdis, hvis, hcur,
        engineDispatch, tipMagicReducer, hrefnone]

/-- After `clearHideNullRef`, no hide-kind timer is pending, provided every
pending hide timer carried the tracked handle. -/
theorem no_hide_after_clearHideNull (x : EngineState) (htid : Nat)
    (hxref : x.hideTimeoutRef = some htid)
    (hclean : ∀ u ∈ x.pending, u.kind = .hideTip → u.id = htid) :
    (clearHideNullRef x).pending.filter (fun u => u.kind = .hideTip) = [] := by
  simp only [clearHideNullRef, hxref, engineClearTimeout]
  rw [List.filter_eq_nil_iff]
  intro u hu hk
  simp only [List.mem_filter, decide_eq_true_eq] at hu
  simp only [decide_eq_true_eq] at hk
  exact hu.2 (by simp [hclean u hu.1 hk])

/-- Firing a visible-branch show callback on a valid distinct target engages
it and leaves no hide timer pending. -/
theorem fire_show_triple (s x : EngineState) (b : Elem) (htid : Nat)
    (hxs : x.store = s.store) (hxc : x.currentTargetRef = s.currentTargetRef)
    (hxref : x.hideTimeoutRef = some htid)
    (hclean : ∀ u ∈ x.pending, u.kind = .hideTip → u.id = htid)
    (hdis : s.store.config.disabled = false)
    (hvis : s.store.tooltip.visible = true)
    (hcur : s.currentTargetRef ≠ some b)
    (hbdis : (parseDataAttributes b).disabled = false)
    (hbcontent : (parseDataAttributes b).content ≠ "") :
    (showTooltip (clearHideNullRef x) b).store.tooltip.visible = true ∧
    (showTooltip (clearHideNullRef x) b).store.tooltip.target = some b ∧
    (showTooltip (clearHideNullRef x) b).pending.filter
      (fun u => u.kind = .hideTip) = [] := by
  obtain ⟨p1, p2, p3, p4, p5⟩ :=
    showTooltip_after_clearHide_move s x b hxs hxc hdis hvis hcur hbdis hbcontent
  refine ⟨p1, p2, ?_⟩
  rw [p4]
  exact no_hide_after_clearHideNull x htid hxref hclean

end HelperLemmas

/-- **C1.** The claimed transition-policy compatibility matrix fails end to
end on the declarative attribute surface: engaging `elemA` (group marker
`"a"`) and then `elemB` (group marker `"b"`, nominal behavior `move`) is a
move-class transition that the code renders as `move`, although the two group
markers are both present and different, because `parseDataAttributes` never
reads `data-tip-group` and no state carries a previous group, so
`areGroupsCompatible` always compares `undefined` with `undefined`. -/
theorem c1_different_groups_still_rendered_as_move :
    elemA.dataset.tipGroup = some "a" ∧
    elemB.dataset.tipGroup = some "b" ∧
    (let s2 := run s0 [.mouseOver (some elemA) false, .mouseOver (some elemB) false]
     s2.store.tooltip.isTransitioning = true ∧
     s2.store.tooltip.target = some elemB ∧
     transitionBehaviorOf s2.store.tooltip DEFAULT_OPTIONS = .move ∧
     areGroupsCompatible (currentGroupOf s2.store.tooltip) (jsPreviousGroupField s2.store.tooltip) = true ∧
     renderedBehavior true s2.store.tooltip DEFAULT_OPTIONS = .move) := by
  decide

/-- **C2.** Exclusive hide timers fail: with the tooltip visible on `elemC`,
a pointer leave arms a hide timer and a subsequent focus-out arms a second one
without cancelling the first, so two hide timers are pending at once; the
first one's handle was overwritten, so even Escape (`clearTimeouts`) leaves it
pending. -/
theorem c2_focusout_arms_second_hide_timer :
    (let s3 := step visibleWithHidePending (.focusOut (some elemC) none false)
     ((s3.pending.filter (fun t => t.kind = .hideTip)).length = 2) ∧
     (((step s3 (.keyDown "Escape")).pending.filter (fun t => t.kind = .hideTip)).length = 1)) := by
  decide

/-- **C5.** `MOVE_TOOLTIP` does set `isTransitioning := true`, but records no
`previousGroup`: `TooltipState` has no such field, so after moving from
`elemA` — whose element carries the group marker `"a"` — to `elemB`, the
rendering component's read of `tooltip.previousGroup` yields `undefined`
rather than `"a"`; the old group is not available to the transition policy. -/
theorem c5_move_does_not_record_previous_group :
    (let showing := tipMagicReducer (createInitialState DEFAULT_OPTIONS)
        (.SHOW_TOOLTIP elemA "A" (parseDataAttributes elemA))
     let moved := tipMagicReducer showing
        (.MOVE_TOOLTIP elemB "B" (parseDataAttributes elemB))
     moved.tooltip.isTransitioning = true ∧
     elemA.dataset.tipGroup = some "a" ∧
     jsPreviousGroupField moved.tooltip = none ∧
     jsPreviousGroupField moved.tooltip ≠ elemA.dataset.tipGroup) := by
  decide

/-- **C8.** The provider-configured default show delay is not the delay used:
with `showDelay := 500` configured and an element that declares no
`data-tip-delay`, hovering arms the show timer with the library constant
`DEFAULT_OPTIONS.showDelay = 200`, because `parseDataAttributes` already
substituted the constant and the handler's `?? config.showDelay` fallback can
never apply. -/
theorem c8_config_show_delay_ignored :
    cfg500.showDelay = 500 ∧
    elemE.dataset.tipDelay = none ∧
    DEFAULT_OPTIONS.showDelay = 200 ∧
    (let r := step (initialEngineState cfg500) (.mouseOver (some elemE) false)
     r.showTimeoutRef = some 1 ∧
     r.pending = [{ id := 1, kind := .showHidden elemE, delay := 200 }]) := by
  decide

/-- **C9.** Boolean-presence parsing: for every metadata bag, each boolean
field of the parsed descriptor is true exactly when its key is present in the
bag — regardless of the key's value (so a present key with value `""` or
`"false"` yields true) — and the `no-arrow` presence flag is reflected as
`showArrow = false`. -/
theorem c9_boolean_presence_semantics (e : Elem) :
    (parseDataAttributes e).disabled = e.dataset.tipDisabled.isSome ∧
    (parseDataAttributes e).ellipsis = e.dataset.tipEllipsis.isSome ∧
    (parseDataAttributes e).wordWrap = e.dataset.tipWordWrap.isSome ∧
    (parseDataAttributes e).html = e.dataset.tipHtml.isSome ∧
    (parseDataAttributes e).interactive = e.dataset.tipInteractive.isSome ∧
    (parseDataAttributes e).showArrow = !e.dataset.tipNoArrow.isSome :=
  ⟨rfl, rfl, rfl, rfl, rfl, rfl⟩

/-- **C4 (counterexample).** The invariant
`visible = false → target = none ∧ parsedData = none ∧ isTransitioning = false`
is not preserved by every reducer transition: `MOVE_TOOLTIP` applied to the
hidden initial state spreads over the current tooltip without setting
`visible`, leaving a non-visible state with a target, a descriptor and
`isTransitioning = true`. -/
theorem c4_move_from_hidden_breaks_invariant :
    tooltipInvariant (createInitialState DEFAULT_OPTIONS).tooltip ∧
    movedFromHidden.tooltip.visible = false ∧
    movedFromHidden.tooltip.target = some elemB ∧
    movedFromHidden.tooltip.isTransitioning = true ∧
    ¬ tooltipInvariant movedFromHidden.tooltip := by
  refine ⟨fun _ => ⟨rfl, rfl, rfl⟩, by decide, by decide, by decide, ?_⟩
  intro h
  exact absurd ((h (by decide)).1) (by decide)

/-- **C4 (amended).** Every reducer transition preserves the invariant
`visible = false → target = none ∧ parsedData = none ∧ isTransitioning = false`,
except that `MOVE_TOOLTIP` and `SET_TOOLTIP_TRANSITIONING true` require the
tooltip to be visible (which is exactly the discipline their only dispatch
sites observe); and after any `HIDE_TOOLTIP` the tooltip state is the full
initial empty state — no stale target, descriptor, or transition flag. -/
theorem c4_guarded_preservation_and_full_reset (state : TipMagicState)
    (action : TipMagicAction)
    (hinv : tooltipInvariant state.tooltip)
    (hguard : dispatchGuard state action = true) :
    tooltipInvariant (tipMagicReducer state action).tooltip ∧
    (tipMagicReducer state .HIDE_TOOLTIP).tooltip = initialTooltipState := by
  refine ⟨?_, rfl⟩
  cases action with
  | SHOW_TOOLTIP t c p => intro h; exact Bool.noConfusion h
  | HIDE_TOOLTIP => intro _; exact ⟨rfl, rfl, rfl⟩
  | MOVE_TOOLTIP t c p =>
    intro h
    have hv : state.tooltip.visible = false := h
    have hg : state.tooltip.visible = true := hguard
    rw [hv] at hg
    exact Bool.noConfusion hg
  | UPDATE_TOOLTIP_POSITION x y pl => intro h; exact hinv h
  | UPDATE_TOOLTIP_CONTENT c => intro h; exact hinv h
  | SET_TOOLTIP_TRANSITIONING b =>
    cases b with
    | true =>
      intro h
      have hv : state.tooltip.visible = false := h
      have hg : state.tooltip.visible = true := hguard
      rw [hv] at hg
      exact Bool.noConfusion hg
    | false =>
      intro h
      exact ⟨(hinv h).1, (hinv h).2.1, rfl⟩
  | SHOW_HELPER p => intro h; exact hinv h
  | HIDE_HELPER => intro h; exact hinv h
  | SET_HELPER_STATE p => intro h; exact hinv h
  | MOVE_HELPER t => intro h; exact hinv h
  | START_FLOW st => intro h; exact hinv h
  | NEXT_FLOW_STEP => intro h; exact hinv h
  | PREV_FLOW_STEP => intro h; exact hinv h
  | END_FLOW => intro h; exact hinv h

/-- Witness for the amended C4 theorem at a concrete input. -/
theorem c4_guarded_preservation_witness :
    tooltipInvariant (tipMagicReducer (createInitialState DEFAULT_OPTIONS)
      (.UPDATE_TOOLTIP_CONTENT "x")).tooltip ∧
    (tipMagicReducer (createInitialState DEFAULT_OPTIONS) .HIDE_TOOLTIP).tooltip
      = initialTooltipState :=
  c4_guarded_preservation_and_full_reset (createInitialState DEFAULT_OPTIONS)
    (.UPDATE_TOOLTIP_CONTENT "x") (by intro h; exact ⟨rfl, rfl, rfl⟩) (by decide)

/-- **C6 (counterexample).** A programmatic engagement of a target whose
descriptor has `disabled = true` is not ignored: `tooltipShow` (the
`useTipMagic` path) checks neither the descriptor's `disabled` flag nor the
global flag, and makes the tooltip visible. -/
theorem c6_programmatic_show_ignores_disabled :
    (parseDataAttributes elemD).disabled = true ∧
    (tooltipShow (createInitialState DEFAULT_OPTIONS) (some elemD) .absent).tooltip.visible = true ∧
    tooltipShow (createInitialState DEFAULT_OPTIONS) (some elemD) .absent
      ≠ createInitialState DEFAULT_OPTIONS := by
  decide

/-- **C6 (amended).** Event-driven engagement requests (the provider's
`showTooltip`) whose target descriptor has empty content or a set disabled
flag, or made while the global disabled flag is set, leave the engine state
completely unchanged; programmatic requests (`tooltipShow`) leave the state
unchanged when the target cannot be resolved or when the resolved content is
empty — but, unlike the event path, they do not check the per-target or
global disabled flags. -/
theorem c6_invalid_candidates_on_event_path (s : EngineState) (t : Elem)
    (st : TipMagicState) (arg : ShowArg) (el : Elem)
    (h : (parseDataAttributes t).disabled = true ∨ s.store.config.disabled = true ∨
         (parseDataAttributes t).content = "")
    (hel : (parseDataAttributes el).content = "") :
    showTooltip s t = s ∧
    tooltipShow st none arg = st ∧
    tooltipShow st (some el) .absent = st := by
  refine ⟨?_, rfl, ?_⟩
  · unfold showTooltip
    rcases h with h | h | h
    · simp [h]
    · simp [h]
    · simp [h]
  · unfold tooltipShow
    simp [hel]

/-- Witness for the amended C6 theorem at concrete inputs. -/
theorem c6_invalid_candidates_witness :
    showTooltip s0 elemD = s0 ∧
    tooltipShow (createInitialState DEFAULT_OPTIONS) none .absent
      = createInitialState DEFAULT_OPTIONS ∧
    tooltipShow (createInitialState DEFAULT_OPTIONS) (some elemEmpty) .absent
      = createInitialState DEFAULT_OPTIONS :=
  c6_invalid_candidates_on_event_path s0 elemD (createInitialState DEFAULT_OPTIONS)
    .absent elemEmpty (Or.inl (by decide)) (by decide)

/-- **C7 (counterexample).** Focus parity fails on engagement: focusing
`elemE` (show delay 200) engages synchronously with no show timer armed,
whereas a pointer enter on the same element in the same state arms a 200 ms
show timer and does not engage. -/
theorem c7_focus_in_skips_show_timer :
    (step s0 (.focusIn (some elemE))).store.tooltip.visible = true ∧
    (step s0 (.focusIn (some elemE))).pending = [] ∧
    (parseDataAttributes elemE).delay = 200 ∧
    (step s0 (.mouseOver (some elemE) false)).store.tooltip.visible = false ∧
    (step s0 (.mouseOver (some elemE) false)).pending
      = [{ id := 1, kind := .showHidden elemE, delay := 200 }] := by
  decide

/-- **C7 (amended).** Focus-in on a resolved target engages it immediately
through the same `showTooltip` contract as a zero-delay engage (no show timer
is armed); focus-out arms a hide timer whose delay follows the same
resolution rule as pointer leave — the per-target override of the
currently-shown descriptor if present, else the global default — although,
unlike pointer leave, it does not cancel a previously pending hide timer. -/
theorem c7_focus_engage_and_hide_delay_rule (s : EngineState) (t : Elem)
    (hdis : s.store.config.disabled = false)
    (hvis : s.store.tooltip.visible = true) :
    step s (.focusIn (some t)) = showTooltip s t ∧
    step s (.focusOut (some t) none false) =
      { s with
          pending := s.pending ++
            [{ id := s.nextTimerId, kind := .hideTip,
               delay := specHideDelayResolution s.store.tooltip.parsedData s.store.config }]
          nextTimerId := s.nextTimerId + 1
          hideTimeoutRef := some s.nextTimerId } ∧
    (step s (.mouseOut false true none false false false)).pending =
      (clearHideKeepRef (clearShowNullRef s)).pending ++
        [{ id := s.nextTimerId, kind := .hideTip,
           delay := specHideDelayResolution s.store.tooltip.parsedData s.store.config }] ∧
    (step s (.mouseOut false true none false false false)).hideTimeoutRef
      = some s.nextTimerId := by
  obtain ⟨hs1, hs2, hs3, hs4⟩ := clearShowNullRef_fields s
  obtain ⟨hk1, hk2, hk3, hk4, hk5⟩ := clearHideKeepRef_fields (clearShowNullRef s)
  refine ⟨?_, ?_, ?_, ?_⟩
  · simp [step, handleFocusIn, hdis]
  · simp only [step, hdis, Bool.false_eq_true, if_false]
    unfold handleFocusOut
    cases hpd : s.store.tooltip.parsedData with
    | none => simp [engineSetTimeout, specHideDelayResolution, hpd]
    | some d =>
      cases hhd : d.hideDelay with
      | none => simp [engineSetTimeout, specHideDelayResolution, hpd, hhd]
      | some v => simp [engineSetTimeout, specHideDelayResolution, hpd, hhd]
  · simp only [step, hdis, Bool.false_eq_true, if_false]
    unfold handleMouseOut
    cases hpd : s.store.tooltip.parsedData with
    | none => simp [engineSetTimeout, specHideDelayResolution, hpd, hs1, hs2, hk2, hvis]
    | some d =>
      cases hhd : d.hideDelay with
      | none => simp [engineSetTimeout, specHideDelayResolution, hpd, hhd, hs1, hs2, hk2, hvis]
      | some v => simp [engineSetTimeout, specHideDelayResolution, hpd, hhd, hs1, hs2, hk2, hvis]
  · simp only [step, hdis, Bool.false_eq_true, if_false]
    unfold handleMouseOut
    simp [engineSetTimeout, hs1, hs2, hk2, hvis]

/-- Witness for the amended C7 theorem at a concrete state. -/
theorem c7_focus_engage_witness :
    step visibleWithHidePending (.focusIn (some elemE))
      = showTooltip visibleWithHidePending elemE ∧
    step visibleWithHidePending (.focusOut (some elemE) none false) =
      { visibleWithHidePending with
          pending := visibleWithHidePending.pending ++
            [{ id := visibleWithHidePending.nextTimerId, kind := .hideTip,
               delay := specHideDelayResolution
                 visibleWithHidePending.store.tooltip.parsedData
                 visibleWithHidePending.store.config }]
          nextTimerId := visibleWithHidePending.nextTimerId + 1
          hideTimeoutRef := some visibleWithHidePending.nextTimerId } ∧
    (step visibleWithHidePending (.mouseOut false true none false false false)).pending =
      (clearHideKeepRef (clearShowNullRef visibleWithHidePending)).pending ++
        [{ id := visibleWithHidePending.nextTimerId, kind := .hideTip,
           delay := specHideDelayResolution
             visibleWithHidePending.store.tooltip.parsedData
             visibleWithHidePending.store.config }] ∧
    (step visibleWithHidePending (.mouseOut false true none false false false)).hideTimeoutRef
      = some visibleWithHidePending.nextTimerId :=
  c7_focus_engage_and_hide_delay_rule visibleWithHidePending elemE (by decide) (by decide)

/-- **C10.** The cancel key is a no-op whenever no tooltip is visible: for
every engine state with `visible = false` and every key, the key-down handler
changes nothing; in particular, after hovering `elemE` (show delay 200) the
armed show timer survives an Escape press and still fires, making the tooltip
visible for `elemE`. -/
theorem c10_escape_noop_when_no_tooltip (s : EngineState) (k : String)
    (h : s.store.tooltip.visible = false) :
    step s (.keyDown k) = s ∧
    step s10 (.keyDown "Escape") = s10 ∧
    (step (step s10 (.keyDown "Escape")) (.timerFire 1)).store.tooltip.visible = true ∧
    (step (step s10 (.keyDown "Escape")) (.timerFire 1)).store.tooltip.target = some elemE := by
  refine ⟨?_, by decide, by decide, by decide⟩
  cases hd : s.store.config.disabled with
  | true => simp [step, hd]
  | false => simp [step, handleKeyDown, h, hd]

/-- Witness for the C10 theorem at a concrete state. -/
theorem c10_escape_noop_witness :
    step s10 (.keyDown "q") = s10 ∧
    step s10 (.keyDown "Escape") = s10 ∧
    (step (step s10 (.keyDown "Escape")) (.timerFire 1)).store.tooltip.visible = true ∧
    (step (step s10 (.keyDown "Escape")) (.timerFire 1)).store.tooltip.target = some elemE :=
  c10_escape_noop_when_no_tooltip s10 "q" (by decide)

/-- **C3.** Show scheduling while a tooltip is visible for a different valid
target `b`: when `b`'s parsed show delay is nonzero, the entry leaves the
store untouched, keeps every previously pending hide timer (in particular
`ht`) pending, and arms a show timer — both race: if the hide timer fires
first the tooltip hides; if the show timer fires first the tooltip engages
`b` and no hide timer remains pending.  When the delay resolves to zero the
engine cancels the pending hide and engages `b` synchronously, arming no
timer and leaving no residual hide timer.  Hypotheses `hnodup` through
`hshowref` say the timers are in the shape the engine itself maintains on
pointer-driven runs: unique fresh handles, every pending hide timer tracked
by the hide ref and not by the show ref. -/
theorem c3_show_hide_race_and_zero_delay_fast_path (s : EngineState) (b : Elem) (ov : Bool) (ht : PendingTimer)
    (hdis : s.store.config.disabled = false)
    (hvis : s.store.tooltip.visible = true)
    (hcur : s.currentTargetRef ≠ some b)
    (hbdis : (parseDataAttributes b).disabled = false)
    (hbcontent : (parseDataAttributes b).content ≠ "")
    (hnodup : (s.pending.map (fun u => u.id)).Nodup)
    (hfresh : ∀ u ∈ s.pending, u.id < s.nextTimerId)
    (hhide : ∀ u ∈ s.pending, u.kind = .hideTip → s.hideTimeoutRef = some u.id)
    (hshowref : ∀ u ∈ s.pending, u.kind = .hideTip → s.showTimeoutRef ≠ some u.id)
    (hht : ht ∈ s.pending) (hhtk : ht.kind = .hideTip) :
    ((parseDataAttributes b).delay ≠ 0 →
      (step s (.mouseOver (some b) ov)).store = s.store ∧
      ht ∈ (step s (.mouseOver (some b) ov)).pending ∧
      ({ id := s.nextTimerId, kind := .showVisible b,
         delay := (parseDataAttributes b).delay } : PendingTimer)
        ∈ (step s (.mouseOver (some b) ov)).pending ∧
      (step s (.mouseOver (some b) ov)).showTimeoutRef = some s.nextTimerId ∧
      (step (step s (.mouseOver (some b) ov)) (.timerFire ht.id)).store.tooltip.visible
        = false ∧
      (step (step s (.mouseOver (some b) ov)) (.timerFire s.nextTimerId)).store.tooltip.visible
        = true ∧
      (step (step s (.mouseOver (some b) ov)) (.timerFire s.nextTimerId)).store.tooltip.target
        = some b ∧
      (step (step s (.mouseOver (some b) ov)) (.timerFire s.nextTimerId)).pending.filter
        (fun u => u.kind = .hideTip) = []) ∧
    ((parseDataAttributes b).delay = 0 →
      (step s (.mouseOver (some b) ov)).store.tooltip.visible = true ∧
      (step s (.mouseOver (some b) ov)).store.tooltip.target = some b ∧
      (step s (.mouseOver (some b) ov)).hideTimeoutRef = none ∧
      (step s (.mouseOver (some b) ov)).pending.filter
        (fun u => u.kind = .hideTip) = [] ∧
      (step s (.mouseOver (some b) ov)).nextTimerId = s.nextTimerId) := by
  obtain ⟨hc1, hc2, hc3, hc4, hc5⟩ := clearShowKeepRef_fields s
  have hsub : (clearShowKeepRef s).pending.Sublist s.pending :=
    clearShowKeepRef_pending_sublist s
  have hhideref : s.hideTimeoutRef = some ht.id := hhide ht hht hhtk
  have hhtcs : ht ∈ (clearShowKeepRef s).pending := by
    cases hsr : s.showTimeoutRef with
    | none => simpa [clearShowKeepRef, hsr] using hht
    | some sid =>
      have hne : ht.id ≠ sid := fun he => hshowref ht hht hhtk (by rw [hsr, he])
      simpa only [clearShowKeepRef, hsr] using mem_clear_pending_of_ne s sid ht hht hne
  have hndcs : ((clearShowKeepRef s).pending.map (fun u => u.id)).Nodup :=
    hnodup.sublist (hsub.map _)
  have hfreshcs : ∀ u ∈ (clearShowKeepRef s).pending, u.id < s.nextTimerId :=
    fun u hu => hfresh u (hsub.subset hu)
  have hcleancs : ∀ u ∈ (clearShowKeepRef s).pending, u.kind = .hideTip → u.id = ht.id := by
    intro u hu hk
    have := hhide u (hsub.subset hu) hk
    rw [hhideref] at this
    exact (Option.some.injEq _ _ ▸ this).symm
  constructor
  · intro hdnz
    have hr := mouseOver_visible_nonzero s b ov hdis hvis hcur hdnz
    rw [hr]
    set nt := s.nextTimerId with hnt
    set new : PendingTimer :=
      { id := nt, kind := .showVisible b, delay := (parseDataAttributes b).delay } with hnew
    have hndR : (((clearShowKeepRef s).pending ++ [new]).map (fun u => u.id)).Nodup := by
      rw [List.map_append, List.nodup_append]
      refine ⟨hndcs, by simp, fun x hx hx2 => ?_⟩
      obtain ⟨u, hu, rfl⟩ := List.mem_map.mp hx
      simp only [List.map_cons, List.map_nil, List.mem_singleton] at hx2
      exact absurd hx2 (Nat.ne_of_lt (hfreshcs u hu))
    have hfound : ((clearShowKeepRef s).pending ++ [new]).find? (fun u => u.id = ht.id)
        = some ht :=
      find_id_of_nodup _ ht hndR (List.mem_append_left _ hhtcs)
    have hfound2 : ((clearShowKeepRef s).pending ++ [new]).find? (fun u => u.id = nt)
        = some new := by
      rw [find_append_of_forall_neg _ _ _
        (fun x hx => by simp [Nat.ne_of_lt (hfreshcs x hx)])]
      exact List.find?_cons_of_pos _ (by simp)
    refine ⟨hc1, List.mem_append_left _ hhtcs,
      List.mem_append_right _ (List.mem_singleton.mpr rfl), rfl, ?_, ?_⟩
    · -- hide timer fires first: the tooltip hides
      simp only [step, fireTimer]
      rw [hfound]
      simp only [hhtk, hideTooltip, engineDispatch, tipMagicReducer]
      rfl
    · -- show timer fires first: engages b and cancels the tracked hide
      simp only [step, fireTimer]
      rw [hfound2]
      have hknew : new.kind = TimerKind.showVisible b := by rw [hnew]
      simp only [hknew]
      have hcleanR :
          ∀ u ∈ ((clearShowKeepRef s).pending ++ [new]).filter (fun u => u.id ≠ nt),
            u.kind = .hideTip → u.id = ht.id := by
        intro u hu hk
        have hu' := List.mem_filter.mp hu
        rcases List.mem_append.mp hu'.1 with h1 | h2
        · exact hcleancs u h1 hk
        · rw [List.mem_singleton] at h2
          rw [h2, hnew] at hk
          exact TimerKind.noConfusion hk
      exact fire_show_triple s
        { clearShowKeepRef s with
            pending := ((clearShowKeepRef s).pending ++ [new]).filter (fun u => u.id ≠ nt)
            nextTimerId := nt + 1
            showTimeoutRef := some nt }
        b ht.id hc1 hc5 (hc4.trans hhideref) hcleanR hdis hvis hcur hbdis hbcontent
  · intro hdz
    have hz := mouseOver_visible_zero s b ov hdis hvis hcur hdz
    rw [hz]
    obtain ⟨p1, p2, p3, p4, p5⟩ := showTooltip_after_clearHide_move s
      (clearShowKeepRef s) b hc1 hc5 hdis hvis hcur hbdis hbcontent
    refine ⟨p1, p2, p3, ?_, p5.trans hc2⟩
    rw [p4]
    exact no_hide_after_clearHideNull (clearShowKeepRef s) ht.id
      (hc4.trans hhideref) hcleancs

/-- Witness for the C3 theorem at a concrete state: visible on `elemC` with a
pending 700 ms hide timer (handle 1), entering `elemE` (show delay 200). -/
theorem c3_show_hide_race_witness :
    (step visibleWithHidePending (.mouseOver (some elemE) false)).store
      = visibleWithHidePending.store ∧
    ({ id := 1, kind := .hideTip, delay := 700 } : PendingTimer)
      ∈ (step visibleWithHidePending (.mouseOver (some elemE) false)).pending ∧
    ({ id := 2, kind := .showVisible elemE,
       delay := (parseDataAttributes elemE).delay } : PendingTimer)
      ∈ (step visibleWithHidePending (.mouseOver (some elemE) false)).pending ∧
    (step visibleWithHidePending (.mouseOver (some elemE) false)).showTimeoutRef = some 2 ∧
    (step (step visibleWithHidePending (.mouseOver (some elemE) false))
      (.timerFire 1)).store.tooltip.visible = false ∧
    (step (step visibleWithHidePending (.mouseOver (some elemE) false))
      (.timerFire 2)).store.tooltip.visible = true ∧
    (step (step visibleWithHidePending (.mouseOver (some elemE) false))
      (.timerFire 2)).store.tooltip.target = some elemE ∧
    (step (step visibleWithHidePending (.mouseOver (some elemE) false))
      (.timerFire 2)).pending.filter (fun u => u.kind = .hideTip) = [] :=
  (c3_show_hide_race_and_zero_delay_fast_path visibleWithHidePending elemE false
    { id := 1, kind := .hideTip, delay := 700 }
    (by decide) (by decide) (by decide) (by decide) (by decide) (by decide)
    (by decide) (by decide) (by decide) (by decide) (by decide)).1 (by decide)

end TipMagic
